import Mathlib

/-
Verification of the channel/power sequencing logic of the
Multi-Channel Amplifier Control Daemon (src/MultiChannelAmpDaemon.py).

The Python daemon is embedded shallowly: each controller method becomes a
pure Lean function on an explicit state record.  Hardware pin writes are
recorded in an explicit trace (`PinWrite`), and, where a claim concerns
hardware failures, pin writes consume entries of an explicit fault oracle
(`List Bool`, `true` = the write succeeds, an exhausted oracle means all
remaining writes succeed).  The `time.sleep` calls are irrelevant to the
logical state except for the re-check points of the deactivation sequence,
which are modelled by splitting that sequence into two phases.
-/

namespace AmpDaemon

/-- Device power states, from `class DeviceState(Enum)`: OFF = 0, ON = 1. -/
inductive DeviceState where
  | OFF
  | ON
deriving DecidableEq

/-- One physical GPIO write: target pin and the level written
(`high = true` models `GPIO.HIGH`). -/
structure PinWrite where
  pin : Nat
  high : Bool
deriving DecidableEq

/-- GPIO pin of the error LED (`GPIO_ERROR_LED = 26`). -/
def GPIO_ERROR_LED : Nat := 26

/-- Static configuration of one sound card (`@dataclass SoundcardConfig`);
the fields not used by the sequencing logic (alsaCard, usbDevice) are
omitted. -/
structure SoundcardConfig where
  id : Nat
  name : String
  gpioSuspend : Nat
  gpioMute : Nat
  gpioLed : Nat
  tempSensor : Option String
  players : List String
deriving DecidableEq

/-- Mutable state of one `SoundcardController`: logical power flag,
active-player set (a duplicate-free list models the Python `set`),
last-activity timestamp, whether a deactivation timer is pending, and the
physical level last written to each of the three pins
(`true` = HIGH; the GPIO reset state is suspend HIGH, mute HIGH, led LOW). -/
structure Soundcard where
  config : SoundcardConfig
  state : DeviceState
  activePlayers : List String
  lastActive : Nat
  timerPending : Bool
  pinSuspend : Bool
  pinMute : Bool
  pinLed : Bool
deriving DecidableEq

/-- Python `set.add`: insert without duplicating. -/
def insertPlayer (p : String) (l : List String) : List String :=
  if p ∈ l then l else p :: l

/-- A `SoundcardController` right after `setupGpio`: suspended, muted,
led off, no active players, no pending timer (initial state). -/
def initCard (cfg : SoundcardConfig) : Soundcard :=
  { config := cfg
    state := DeviceState.OFF
    activePlayers := []
    lastActive := 0
    timerPending := false
    pinSuspend := true
    pinMute := true
    pinLed := false }

/-- `SoundcardController.isActive`: lock-free read of the power flag. -/
def Soundcard.isActive (c : Soundcard) : Bool :=
  c.state = DeviceState.ON

/-- `SoundcardController.activate`, success path (no pin write fails):
returns immediately when already ON, otherwise writes suspend LOW,
mute LOW, led HIGH and sets the flag to ON.  The pin-write trace is
returned alongside the new state. -/
def Soundcard.activate (c : Soundcard) : Soundcard × List PinWrite :=
  if c.state = DeviceState.ON then (c, [])
  else
    ({ c with pinSuspend := false, pinMute := false, pinLed := true,
              state := DeviceState.ON },
     [⟨c.config.gpioSuspend, false⟩, ⟨c.config.gpioMute, false⟩,
      ⟨c.config.gpioLed, true⟩])

/-- `SoundcardController.activatePlayer(playerName)`: record the player,
update the activity timestamp, cancel any pending deactivation timer, and
run the activation sequence when the set was empty or the card is OFF. -/
def Soundcard.activatePlayer (t : Nat) (p : String) (c : Soundcard) :
    Soundcard × List PinWrite :=
  let wasEmpty := c.activePlayers = []
  let c1 := { c with activePlayers := insertPlayer p c.activePlayers,
                     lastActive := t, timerPending := false }
  if wasEmpty ∨ c1.state = DeviceState.OFF then c1.activate else (c1, [])

/-- `SoundcardController.deactivatePlayer(playerName)`: discard the player
and schedule a deactivation timer when the set becomes empty
(`scheduleDeactivation` cancels any previous timer and starts a new one,
modelled by setting the pending flag). -/
def Soundcard.deactivatePlayer (p : String) (c : Soundcard) : Soundcard :=
  let c1 := { c with activePlayers := c.activePlayers.erase p }
  if c1.activePlayers = [] then { c1 with timerPending := true } else c1

/-- Outcome of one phase of a hardware sequence: updated card, pin writes
performed, and whether the sequence proceeds (or, for the final phase,
whether the card went OFF and must notify the daemon). -/
structure SeqResult where
  card : Soundcard
  writes : List PinWrite
  proceed : Bool
deriving DecidableEq

/-- First half of `SoundcardController.deactivate`, up to the
mute-to-suspend delay: abort when players are (still) active or the card
is already OFF; otherwise write mute HIGH and start the delay. -/
def Soundcard.deactivatePhase1 (c : Soundcard) : SeqResult :=
  if ¬ c.activePlayers = [] then ⟨c, [], false⟩
  else if c.state = DeviceState.OFF then ⟨c, [], false⟩
  else ⟨{ c with pinMute := true }, [⟨c.config.gpioMute, true⟩], true⟩

/-- Second half of `SoundcardController.deactivate`, after the
mute-to-suspend delay: when players became active during the delay,
reverse the mute write and abort; otherwise write suspend HIGH, led LOW,
set the flag OFF; `proceed = true` reports that the card went OFF (after
which the Python code calls `daemon.checkPowerSupplyDeactivation()`). -/
def Soundcard.deactivatePhase2 (c : Soundcard) : SeqResult :=
  if ¬ c.activePlayers = [] then
    ⟨{ c with pinMute := false }, [⟨c.config.gpioMute, false⟩], false⟩
  else
    ⟨{ c with pinSuspend := true, pinLed := false, state := DeviceState.OFF },
     [⟨c.config.gpioSuspend, true⟩, ⟨c.config.gpioLed, false⟩], true⟩

/-- `SoundcardController.deactivate` run atomically (no interleaving during
the mute-to-suspend delay; the delay re-check then re-reads an unchanged
player set): phase 1 followed, when it proceeded, by phase 2. -/
def Soundcard.deactivateRun (c : Soundcard) : SeqResult :=
  let r1 := c.deactivatePhase1
  if r1.proceed then
    let r2 := r1.card.deactivatePhase2
    ⟨r2.card, r1.writes ++ r2.writes, r2.proceed⟩
  else ⟨r1.card, r1.writes, false⟩

/-- Mutable state of the `PowerSupplyController`: logical flag, pending
deactivation timer (`some d` = a timer for duration `d` is pending),
configured idle timeout (the global `POWER_SUPPLY_TIMEOUT`), and the
physical level of the supply pin (`true` = HIGH = supply off). -/
structure PowerSupply where
  gpioPin : Nat
  state : DeviceState
  timer : Option Nat
  timeout : Nat
  pinHigh : Bool
deriving DecidableEq

/-- A `PowerSupplyController` right after `setupGpio`: off, pin HIGH,
no pending timer. -/
def initSupply (pin timeout : Nat) : PowerSupply :=
  { gpioPin := pin, state := DeviceState.OFF, timer := none,
    timeout := timeout, pinHigh := true }

/-- `PowerSupplyController.isActive`. -/
def PowerSupply.isActive (s : PowerSupply) : Bool :=
  s.state = DeviceState.ON

/-- `PowerSupplyController.activate`: always cancel a pending deactivation
timer (even when already ON); when OFF, write the pin LOW and set ON. -/
def PowerSupply.activate (s : PowerSupply) : PowerSupply × List PinWrite :=
  let s1 := { s with timer := none }
  if s1.state = DeviceState.ON then (s1, [])
  else ({ s1 with pinHigh := false, state := DeviceState.ON },
        [⟨s.gpioPin, false⟩])

/-- `PowerSupplyController.scheduleDeactivation`: cancel any existing timer
and start a new one for the configured supply-idle timeout. -/
def PowerSupply.scheduleDeactivation (s : PowerSupply) : PowerSupply :=
  { s with timer := some s.timeout }

/-- `PowerSupplyController.deactivate`: no-op when already OFF, otherwise
write the pin HIGH and set OFF. -/
def PowerSupply.deactivate (s : PowerSupply) : PowerSupply × List PinWrite :=
  if s.state = DeviceState.OFF then (s, [])
  else ({ s with pinHigh := true, state := DeviceState.OFF }, [⟨s.gpioPin, true⟩])

/-- State of the `AmpControlDaemon`: the sound-card controllers, the
player-to-soundcard routing table (assoc list; insertion prepends, lookup
takes the first match, so a later insertion for the same name wins, as in
a Python dict), the supply controller and the error-LED bookkeeping. -/
structure Daemon where
  soundcards : List Soundcard
  playerToSoundcard : List (String × Nat)
  powerSupply : PowerSupply
  errorLedInitialized : Bool
  errorLedActive : Bool
deriving DecidableEq

/-- First-match lookup in the routing table (`playerName in
self.playerToSoundcard` / `self.playerToSoundcard[playerName]`). -/
def lookupRoute (p : String) : List (String × Nat) → Option Nat
  | [] => none
  | (q, i) :: rest => if q = p then some i else lookupRoute p rest

/-- Apply a pin-writing update to the sound card with the given id
(`self.soundcards[soundcardId]`), collecting its pin writes. -/
def Daemon.updateCard (i : Nat) (g : Soundcard → Soundcard × List PinWrite)
    (d : Daemon) : Daemon × List PinWrite :=
  let rs := d.soundcards.map (fun c => if c.config.id = i then g c else (c, []))
  ({ d with soundcards := rs.map Prod.fst }, (rs.map Prod.snd).flatten)

/-- Apply a pure update to the sound card with the given id. -/
def Daemon.updateCardPure (i : Nat) (g : Soundcard → Soundcard)
    (d : Daemon) : Daemon :=
  let cs := d.soundcards.map (fun c => if c.config.id = i then g c else c)
  { d with soundcards := cs }

/-- `AmpControlDaemon.checkPowerSupplyDeactivation`: when no sound card is
active and the supply is active, schedule the supply deactivation;
otherwise change nothing. -/
def Daemon.checkPowerSupplyDeactivation (d : Daemon) : Daemon :=
  let anyActive := d.soundcards.any Soundcard.isActive
  if anyActive = false ∧ d.powerSupply.isActive = true then
    { d with powerSupply := d.powerSupply.scheduleDeactivation }
  else d

/-- Abstract record of the controller calls `handlePlayerEvent` makes, in
order, used to state the event-ordering and unknown-player claims. -/
inductive CallAction where
  | warnUnknownPlayer (p : String)
  | supplyActivate
  | markPlayerActive (p : String)
  | markPlayerInactive (p : String)
  | checkSupplyRelease
deriving DecidableEq

/-- `AmpControlDaemon.handlePlayerEvent(playerName, state)` on the
failure-free path: unknown players are logged and dropped; a play event
(`state == 1`) activates the supply first and then the routed card; a stop
event marks the player inactive and then re-checks the supply release.
Returns the new daemon state, the ordered controller-call trace and the
pin writes performed. -/
def Daemon.handlePlayerEvent (t : Nat) (playerName : String) (state : Nat)
    (d : Daemon) : Daemon × List CallAction × List PinWrite :=
  match lookupRoute playerName d.playerToSoundcard with
  | none => (d, [CallAction.warnUnknownPlayer playerName], [])
  | some soundcardId =>
    if state = 1 then
      let r := d.powerSupply.activate
      let d1 := { d with powerSupply := r.1 }
      let r2 := d1.updateCard soundcardId (Soundcard.activatePlayer t playerName)
      (r2.1, [CallAction.supplyActivate, CallAction.markPlayerActive playerName],
       r.2 ++ r2.2)
    else
      let d1 := d.updateCardPure soundcardId (Soundcard.deactivatePlayer playerName)
      let d2 := d1.checkPowerSupplyDeactivation
      (d2, [CallAction.markPlayerInactive playerName, CallAction.checkSupplyRelease],
       [])

/-- Per-card effect of the timer of card `i` firing: the deactivation
callback runs only on the card with a pending timer for that id; the fired
timer is consumed; the second component records whether the card went OFF
(in which case the callback notifies the daemon). -/
def fireCardStep (i : Nat) (c : Soundcard) : Soundcard × Bool :=
  if c.config.id = i ∧ c.timerPending = true then
    let r := Soundcard.deactivateRun { c with timerPending := false }
    (r.card, r.proceed)
  else (c, false)

/-- Firing of the deactivation timer of the sound card with id `i`: the
callback runs only when that card has a pending timer; when the
deactivation sequence completes (card went OFF) the callback calls
`checkPowerSupplyDeactivation` on the daemon. -/
def Daemon.fireCardTimer (i : Nat) (d : Daemon) : Daemon :=
  let rs := d.soundcards.map (fireCardStep i)
  let d1 := { d with soundcards := rs.map Prod.fst }
  if rs.any Prod.snd then d1.checkPowerSupplyDeactivation else d1

/-- Firing of the supply's deactivation timer: runs only when a timer is
pending; the fired timer is consumed and `PowerSupplyController.deactivate`
runs. -/
def Daemon.fireSupplyTimer (d : Daemon) : Daemon :=
  match d.powerSupply.timer with
  | none => d
  | some _ =>
    { d with powerSupply :=
        (PowerSupply.deactivate { d.powerSupply with timer := none }).1 }

/-- Routing table built by `setupSoundcards`: every configured player name
maps to its card's id (later entries shadow earlier ones, as with a dict). -/
def buildRoutes (cfgs : List SoundcardConfig) : List (String × Nat) :=
  cfgs.foldl (fun r cfg => cfg.players.foldl (fun r2 p => (p, cfg.id) :: r2) r) []

/-- The daemon right after startup: every card and the supply in their
GPIO reset states, routes built from the configuration, error LED
initialized and off. -/
def Daemon.init (cfgs : List SoundcardConfig) (pin timeout : Nat) : Daemon :=
  { soundcards := cfgs.map initCard
    playerToSoundcard := buildRoutes cfgs
    powerSupply := initSupply pin timeout
    errorLedInitialized := true
    errorLedActive := false }

/-- One externally observable event of the running daemon: a player
play/stop message, or the firing of a pending deactivation timer. -/
inductive Event where
  | player (t : Nat) (name : String) (state : Nat)
  | fireCardTimer (id : Nat)
  | fireSupplyTimer
deriving DecidableEq

/-- Apply one event to the daemon state (failure-free path). -/
def Daemon.applyEvent (d : Daemon) : Event → Daemon
  | Event.player t name state => (d.handlePlayerEvent t name state).1
  | Event.fireCardTimer i => d.fireCardTimer i
  | Event.fireSupplyTimer => d.fireSupplyTimer

/-- Apply a sequence of events in order. -/
def Daemon.applyEvents (evs : List Event) (d : Daemon) : Daemon :=
  evs.foldl Daemon.applyEvent d

/-- Draw the outcome of the next pin-write attempt from the fault oracle
(`true` = the write succeeds; an exhausted oracle means success). -/
def nextFault : List Bool → Bool × List Bool
  | [] => (true, [])
  | b :: r => (b, r)

/-- Outcome of a hardware sequence run against a fault oracle: updated
card, pin writes that actually happened, and whether some write raised
(after which the Python `except` clause aborts the rest of the sequence). -/
structure FaultResult where
  card : Soundcard
  writes : List PinWrite
  faulted : Bool
deriving DecidableEq

/-- `SoundcardController.activate` with a fault oracle: each `GPIO.output`
call consumes one oracle entry; a raising write changes nothing and aborts
the sequence, and the logical flag is assigned only after the last write. -/
def Soundcard.activateF (f : List Bool) (c : Soundcard) : FaultResult :=
  if c.state = DeviceState.ON then ⟨c, [], false⟩
  else
    let a1 := nextFault f
    if a1.1 = false then ⟨c, [], true⟩
    else
      let c1 := { c with pinSuspend := false }
      let w1 : PinWrite := ⟨c.config.gpioSuspend, false⟩
      let a2 := nextFault a1.2
      if a2.1 = false then ⟨c1, [w1], true⟩
      else
        let c2 := { c1 with pinMute := false }
        let w2 : PinWrite := ⟨c.config.gpioMute, false⟩
        let a3 := nextFault a2.2
        if a3.1 = false then ⟨c2, [w1, w2], true⟩
        else
          ⟨{ c2 with pinLed := true, state := DeviceState.ON },
           [w1, w2, ⟨c.config.gpioLed, true⟩], false⟩

/-- `SoundcardController.deactivate` with a fault oracle (run atomically,
so the mid-delay re-check re-reads an unchanged player set): guards first,
then mute HIGH, suspend HIGH, led LOW, each write consuming one oracle
entry; a raising write aborts the sequence and the logical flag is
assigned only after the last write. -/
def Soundcard.deactivateF (f : List Bool) (c : Soundcard) : FaultResult :=
  if ¬ c.activePlayers = [] then ⟨c, [], false⟩
  else if c.state = DeviceState.OFF then ⟨c, [], false⟩
  else
    let a1 := nextFault f
    if a1.1 = false then ⟨c, [], true⟩
    else
      let c1 := { c with pinMute := true }
      let w1 : PinWrite := ⟨c.config.gpioMute, true⟩
      if ¬ c1.activePlayers = [] then
        ⟨{ c1 with pinMute := false }, [w1, ⟨c.config.gpioMute, false⟩], false⟩
      else
        let a2 := nextFault a1.2
        if a2.1 = false then ⟨c1, [w1], true⟩
        else
          let c2 := { c1 with pinSuspend := true }
          let w2 : PinWrite := ⟨c.config.gpioSuspend, true⟩
          let a3 := nextFault a2.2
          if a3.1 = false then ⟨c2, [w1, w2], true⟩
          else
            ⟨{ c2 with pinLed := false, state := DeviceState.OFF },
             [w1, w2, ⟨c.config.gpioLed, false⟩], false⟩

/-- The per-card body of step 2 of `AmpControlDaemon.handleError`: for a
card whose flag is ON, write mute HIGH, suspend HIGH, led LOW and set the
flag OFF; a raising write aborts this card's writes (the `except` inside
the loop) and the cascade continues with the next card.  Returns the card,
its pin writes and the remaining oracle. -/
def Soundcard.emergencyOff (f : List Bool) (c : Soundcard) :
    Soundcard × List PinWrite × List Bool :=
  if c.state = DeviceState.ON then
    let a1 := nextFault f
    if a1.1 = false then (c, [], a1.2)
    else
      let c1 := { c with pinMute := true }
      let w1 : PinWrite := ⟨c.config.gpioMute, true⟩
      let a2 := nextFault a1.2
      if a2.1 = false then (c1, [w1], a2.2)
      else
        let c2 := { c1 with pinSuspend := true }
        let w2 : PinWrite := ⟨c.config.gpioSuspend, true⟩
        let a3 := nextFault a2.2
        if a3.1 = false then (c2, [w1, w2], a3.2)
        else
          ({ c2 with pinLed := false, state := DeviceState.OFF },
           [w1, w2, ⟨c.config.gpioLed, false⟩], a3.2)
  else (c, [], f)

/-- Step 2 of `AmpControlDaemon.handleError` over the whole card list,
threading the fault oracle left to right. -/
def emergencyOffAll (f : List Bool) :
    List Soundcard → List Soundcard × List PinWrite × List Bool
  | [] => ([], [], f)
  | c :: rest =>
    let r := c.emergencyOff f
    let rs := emergencyOffAll r.2.2 rest
    (r.1 :: rs.1, r.2.1 ++ rs.2.1, rs.2.2)

/-- `AmpControlDaemon.handleError` (emergency shutdown) against a fault
oracle: raise the error LED first (`errorLedActive` is assigned only when
that write succeeds), then force every ON card off (continuing through
per-card failures), then force the supply off.  Returns the new daemon
state and the pin writes performed. -/
def Daemon.handleError (f : List Bool) (d : Daemon) : Daemon × List PinWrite :=
  let ledStep :=
    if d.errorLedInitialized = true then
      let a := nextFault f
      if a.1 = true then
        (true, [(⟨GPIO_ERROR_LED, true⟩ : PinWrite)], a.2)
      else (d.errorLedActive, ([] : List PinWrite), a.2)
    else (d.errorLedActive, ([] : List PinWrite), f)
  let cardsStep := emergencyOffAll ledStep.2.2 d.soundcards
  let supplyStep :=
    if d.powerSupply.state = DeviceState.ON then
      let a := nextFault cardsStep.2.2
      if a.1 = true then
        ({ d.powerSupply with pinHigh := true, state := DeviceState.OFF },
         [(⟨d.powerSupply.gpioPin, true⟩ : PinWrite)])
      else (d.powerSupply, ([] : List PinWrite))
    else (d.powerSupply, ([] : List PinWrite))
  ({ d with errorLedActive := ledStep.1, soundcards := cardsStep.1,
            powerSupply := supplyStep.1 },
   ledStep.2.1 ++ cardsStep.2.1 ++ supplyStep.2)

/-- The deactivation of a card racing a `markPlayerActive(p)` call that
arrives during the mute-to-suspend delay.  `interleaved = true` is the
interleaving in which the arriving call runs at the delay point and the
sequence's re-check observes it (the reversal path of the source);
`interleaved = false` is the serialization in which the arriving call
waits for the sequence's lock, so the sequence completes and the call runs
after it. -/
def Soundcard.deactivateRaced (t : Nat) (p : String) (interleaved : Bool)
    (c : Soundcard) : Soundcard × List PinWrite :=
  let r1 := c.deactivatePhase1
  if r1.proceed then
    if interleaved then
      let ra := r1.card.activatePlayer t p
      let r2 := ra.1.deactivatePhase2
      (r2.card, r1.writes ++ ra.2 ++ r2.writes)
    else
      let r2 := r1.card.deactivatePhase2
      let ra := r2.card.activatePlayer t p
      (ra.1, r1.writes ++ r2.writes ++ ra.2)
  else
    let ra := r1.card.activatePlayer t p
    (ra.1, r1.writes ++ ra.2)

/-- Python's `pat in s` substring test, via `splitOn`: the pattern occurs
in `s` exactly when splitting on it yields more than one part. -/
def containsSub (s pat : String) : Bool :=
  (s.splitOn pat).length ≠ 1

/-- Numeric value of a digit string (`foldl` over the characters). -/
def natVal (s : String) : Nat :=
  s.foldl (fun n c => n * 10 + (c.toNat - 48)) 0

/-- Python `float(tempStr)` on the plain decimal literals produced by a
w1_slave file (optional sign, digits, optional fraction), as an exact
rational; any other input raises `ValueError`, modelled as `none`
(the surrounding generic `except` turns it into a `None` result). -/
def parseDecimal (s : String) : Option ℚ :=
  let sb := if s.startsWith "-" then ((-1 : ℚ), s.drop 1)
            else if s.startsWith "+" then ((1 : ℚ), s.drop 1)
            else ((1 : ℚ), s)
  match (sb.2.splitOn ".") with
  | [ip] =>
    if ip.length > 0 ∧ ip.all Char.isDigit then some (sb.1 * natVal ip) else none
  | [ip, fp] =>
    if (ip.length + fp.length > 0) ∧ ip.all Char.isDigit ∧ fp.all Char.isDigit then
      some (sb.1 * ((natVal ip : ℚ) + (natVal fp : ℚ) / (10 : ℚ) ^ fp.length))
    else none
  | _ => none

/-- `AmpControlDaemon.readTemperature(sensorId)`.  The 1-wire filesystem is
an explicit parameter `w1` mapping a sensor id to the lines of its
`w1_slave` file (`none` = file missing or unreadable).  Returns `none` on
an empty sensor id, a missing file, a failed CRC check (`'YES' not in
lines[0]`), a missing `t=` marker, or an unparsable value; otherwise the
parsed milli-degree value divided by 1000. -/
def readTemperature (w1 : String → Option (List String)) (sensorId : String) :
    Option ℚ :=
  if sensorId = "" then none
  else
    match w1 sensorId with
    | none => none
    | some lines =>
      if lines.length < 2 ∨ containsSub lines.headI "YES" = false then none
      else
        match ((lines.get? 1).getD "").splitOn "t=" with
        | [] => none
        | [_] => none
        | _ :: rest =>
          match parseDecimal (String.intercalate "t=" rest).trim with
          | none => none
          | some v => some (v / 1000)

/-- Python truthiness of the optional `tempSensor` field (`if
sc.config.tempSensor:`): `None` and the empty string are falsy. -/
def sensorConfigured : Option String → Bool
  | none => false
  | some s => s ≠ ""

/-- Python `round(x, 1)` on an exact rational (the rounding direction of
ties is irrelevant to the claims below). -/
def roundTo1 (q : ℚ) : ℚ :=
  (round (q * 10) : ℤ) / 10

/-- One entry of the `soundcards` dictionary built by
`AmpControlDaemon.getStatus`. -/
structure SoundcardStatus where
  id : Nat
  name : String
  stateStr : String
  active : Bool
  activePlayers : List String
  playerCount : Nat
  temperature : Option ℚ
  tempSensor : Option String
deriving DecidableEq

/-- The dictionary returned by `AmpControlDaemon.getStatus`. -/
structure Status where
  timestamp : Nat
  powerSupplyActive : Bool
  errorLedActive : Bool
  soundcards : List SoundcardStatus
deriving DecidableEq

/-- The per-card body of `AmpControlDaemon.getStatus`: derive the state
string, and when a temperature sensor is configured evaluate
`round(self.readTemperature(...), 1)` — which raises `TypeError` when the
read returned `None`. -/
def Soundcard.statusOf (w1 : String → Option (List String)) (c : Soundcard) :
    Except String SoundcardStatus :=
  let stateStr := if ¬ c.activePlayers = [] then "on"
                  else if c.isActive = true then "muted"
                  else "suspended"
  let base : Option ℚ → SoundcardStatus := fun temp =>
    { id := c.config.id, name := c.config.name, stateStr := stateStr,
      active := c.isActive, activePlayers := c.activePlayers,
      playerCount := c.activePlayers.length, temperature := temp,
      tempSensor := c.config.tempSensor }
  if sensorConfigured c.config.tempSensor = true then
    match readTemperature w1 (c.config.tempSensor.getD "") with
    | none => Except.error "TypeError"
    | some v => Except.ok (base (some (roundTo1 v)))
  else Except.ok (base none)

/-- `getStatus` over the card list, stopping at the first raising card. -/
def statusAll (w1 : String → Option (List String)) :
    List Soundcard → Except String (List SoundcardStatus)
  | [] => Except.ok []
  | c :: rest =>
    match c.statusOf w1 with
    | Except.error e => Except.error e
    | Except.ok s =>
      match statusAll w1 rest with
      | Except.error e => Except.error e
      | Except.ok ss => Except.ok (s :: ss)

/-- `AmpControlDaemon.getStatus`: the supply and error-LED entries always
succeed; the card entries may raise `TypeError` through `round(None, 1)`. -/
def Daemon.getStatus (w1 : String → Option (List String)) (t : Nat)
    (d : Daemon) : Except String Status :=
  match statusAll w1 d.soundcards with
  | Except.error e => Except.error e
  | Except.ok scs =>
    Except.ok { timestamp := t, powerSupplyActive := d.powerSupply.isActive,
                errorLedActive := d.errorLedActive, soundcards := scs }

/-- Whether an `Except` computation returned normally. -/
def isOkE {α : Type} (e : Except String α) : Bool :=
  match e with
  | Except.ok _ => true
  | Except.error _ => false

theorem DeviceState.eq_on_of_ne_off {s : DeviceState} (h : ¬ s = DeviceState.OFF) :
    s = DeviceState.ON := by
  cases s
  · exact absurd rfl h
  · rfl

theorem insertPlayer_ne_nil (p : String) (l : List String) : insertPlayer p l ≠ [] := by
  unfold insertPlayer
  split
  · intro h
    subst h
    simp_all
  · simp

theorem mem_insertPlayer_self (p : String) (l : List String) : p ∈ insertPlayer p l := by
  unfold insertPlayer
  split
  · assumption
  · exact List.mem_cons_self p l

theorem insertPlayer_of_mem {p : String} {l : List String} (h : p ∈ l) :
    insertPlayer p l = l := by
  unfold insertPlayer
  exact if_pos h

theorem activate_fst_state (c : Soundcard) : c.activate.1.state = DeviceState.ON := by
  unfold Soundcard.activate
  split
  · assumption
  · rfl

theorem activate_fst_activePlayers (c : Soundcard) :
    c.activate.1.activePlayers = c.activePlayers := by
  unfold Soundcard.activate
  split
  · rfl
  · rfl

theorem activate_fst_timerPending (c : Soundcard) :
    c.activate.1.timerPending = c.timerPending := by
  unfold Soundcard.activate
  split
  · rfl
  · rfl

theorem activatePlayer_fst_state (t : Nat) (p : String) (c : Soundcard) :
    (c.activatePlayer t p).1.state = DeviceState.ON := by
  unfold Soundcard.activatePlayer
  dsimp only
  split
  · exact activate_fst_state _
  · next h =>
    push_neg at h
    exact DeviceState.eq_on_of_ne_off h.2

theorem activatePlayer_fst_activePlayers (t : Nat) (p : String) (c : Soundcard) :
    (c.activatePlayer t p).1.activePlayers = insertPlayer p c.activePlayers := by
  unfold Soundcard.activatePlayer
  dsimp only
  split
  · exact activate_fst_activePlayers _
  · rfl

theorem activatePlayer_fst_timerPending (t : Nat) (p : String) (c : Soundcard) :
    (c.activatePlayer t p).1.timerPending = false := by
  unfold Soundcard.activatePlayer
  dsimp only
  split
  · exact activate_fst_timerPending _
  · rfl

theorem deactivatePlayer_state (p : String) (c : Soundcard) :
    (c.deactivatePlayer p).state = c.state := by
  unfold Soundcard.deactivatePlayer
  dsimp only
  split
  · rfl
  · rfl

theorem deactivatePlayer_activePlayers (p : String) (c : Soundcard) :
    (c.deactivatePlayer p).activePlayers = c.activePlayers.erase p := by
  unfold Soundcard.deactivatePlayer
  dsimp only
  split
  · rfl
  · rfl

theorem phase1_card_state (c : Soundcard) :
    c.deactivatePhase1.card.state = c.state := by
  unfold Soundcard.deactivatePhase1
  split
  · rfl
  · split
    · rfl
    · rfl

theorem phase1_card_activePlayers (c : Soundcard) :
    c.deactivatePhase1.card.activePlayers = c.activePlayers := by
  unfold Soundcard.deactivatePhase1
  split
  · rfl
  · split
    · rfl
    · rfl

theorem phase2_card_state (c : Soundcard) :
    c.deactivatePhase2.card.state = c.state ∨
      c.deactivatePhase2.card.state = DeviceState.OFF := by
  unfold Soundcard.deactivatePhase2
  split
  · exact Or.inl rfl
  · exact Or.inr rfl

theorem phase2_card_activePlayers (c : Soundcard) :
    c.deactivatePhase2.card.activePlayers = c.activePlayers := by
  unfold Soundcard.deactivatePhase2
  split
  · rfl
  · rfl

theorem deactivateRun_card_state (c : Soundcard) :
    c.deactivateRun.card.state = c.state ∨
      c.deactivateRun.card.state = DeviceState.OFF := by
  unfold Soundcard.deactivateRun
  dsimp only
  split
  · rcases phase2_card_state c.deactivatePhase1.card with h | h
    · rw [h, phase1_card_state]
      exact Or.inl rfl
    · rw [h]
      exact Or.inr rfl
  · rw [phase1_card_state]
    exact Or.inl rfl

theorem deactivateRun_card_activePlayers (c : Soundcard) :
    c.deactivateRun.card.activePlayers = c.activePlayers := by
  unfold Soundcard.deactivateRun
  dsimp only
  split
  · rw [phase2_card_activePlayers, phase1_card_activePlayers]
  · rw [phase1_card_activePlayers]

theorem deactivateRun_of_ne_nil {c : Soundcard} (h : c.activePlayers ≠ []) :
    c.deactivateRun.card = c := by
  unfold Soundcard.deactivateRun Soundcard.deactivatePhase1
  simp [h]

theorem supply_activate_fst_timer (s : PowerSupply) : s.activate.1.timer = none := by
  unfold PowerSupply.activate
  dsimp only
  split
  · rfl
  · rfl

theorem supply_activate_fst_state (s : PowerSupply) :
    s.activate.1.state = DeviceState.ON := by
  unfold PowerSupply.activate
  dsimp only
  split
  · assumption
  · rfl

/-- One atomic operation on a single channel: a play event for `p` at time
`t` (`markPlayerActive`), a stop event for `p` (`markPlayerInactive`), or
the firing of the channel's pending deactivation timer. -/
inductive ChEvent where
  | start (t : Nat) (p : String)
  | stop (p : String)
  | fire
deriving DecidableEq

/-- Apply one channel operation (failure-free path). -/
def chStep (c : Soundcard) : ChEvent → Soundcard
  | ChEvent.start t p => (c.activatePlayer t p).1
  | ChEvent.stop p => c.deactivatePlayer p
  | ChEvent.fire =>
    if c.timerPending = true then
      (Soundcard.deactivateRun { c with timerPending := false }).card
    else c

/-- Apply a sequence of channel operations in order. -/
def chRun (evs : List ChEvent) (c : Soundcard) : Soundcard :=
  evs.foldl chStep c

/-- The per-channel invariant of claim C2: a non-empty active-player set
forces the power flag to be ON. -/
def ChInv (c : Soundcard) : Prop :=
  c.activePlayers ≠ [] → c.state = DeviceState.ON

theorem chStep_ChInv {c : Soundcard} (e : ChEvent) (h : ChInv c) :
    ChInv (chStep c e) := by
  cases e with
  | start t p =>
    dsimp only [chStep]
    intro _
    exact activatePlayer_fst_state t p c
  | stop p =>
    dsimp only [chStep]
    intro hne
    rw [deactivatePlayer_state]
    apply h
    intro hnil
    rw [deactivatePlayer_activePlayers, hnil] at hne
    simp at hne
  | fire =>
    dsimp only [chStep]
    split
    · intro hne
      rw [deactivateRun_card_activePlayers] at hne
      rw [deactivateRun_of_ne_nil hne]
      exact h hne
    · exact h

theorem chRun_ChInv (evs : List ChEvent) {c : Soundcard} (h : ChInv c) :
    ChInv (chRun evs c) := by
  induction evs generalizing c with
  | nil => exact h
  | cons e rest ih => exact ih (chStep_ChInv e h)

/-- Concrete sound-card configuration used by witnesses. -/
def cfgW : SoundcardConfig :=
  { id := 0, name := "C1", gpioSuspend := 5, gpioMute := 6, gpioLed := 7,
    tempSensor := none, players := ["a", "b"] }

/-- C2: in every state of a channel reachable by markPlayerActive /
markPlayerInactive calls and deactivation-timer firings, a non-empty
active-player set implies power state Active (`DeviceState.ON`). -/
theorem channel_nonempty_players_implies_active (cfg : SoundcardConfig)
    (evs : List ChEvent)
    (h : (chRun evs (initCard cfg)).activePlayers ≠ []) :
    (chRun evs (initCard cfg)).state = DeviceState.ON :=
  chRun_ChInv evs (fun hne => absurd rfl hne) h

/-- Witness for C2 at a concrete reachable state with a non-empty set. -/
theorem channel_nonempty_players_implies_active_witness :
    (chRun [ChEvent.start 1 "a"] (initCard cfgW)).activePlayers ≠ [] ∧
    (chRun [ChEvent.start 1 "a"] (initCard cfgW)).state = DeviceState.ON :=
  ⟨by decide,
   channel_nonempty_players_implies_active cfgW [ChEvent.start 1 "a"] (by decide)⟩

theorem activatePlayer_already_active (t : Nat) {p : String} {d : Soundcard}
    (hs : d.state = DeviceState.ON) (hmem : p ∈ d.activePlayers) :
    d.activatePlayer t p = ({ d with lastActive := t, timerPending := false }, []) := by
  have hne : d.activePlayers ≠ [] := by
    intro h0
    rw [h0] at hmem
    exact absurd hmem (List.not_mem_nil p)
  unfold Soundcard.activatePlayer
  dsimp only
  rw [insertPlayer_of_mem hmem, if_neg]
  push_neg
  refine ⟨hne, ?_⟩
  dsimp only
  rw [hs]
  intro hcontra
  exact DeviceState.noConfusion hcontra

/-- C5: calling markPlayerActive twice in a row with the same player has
the same observable effect as calling it once — equal power state,
active-player set, pending-timer status and pin levels, and the second
call performs no pin write at all. -/
theorem markPlayerActive_idempotent (c : Soundcard) (t1 t2 : Nat) (p : String) :
    (((c.activatePlayer t1 p).1.activatePlayer t2 p).1.state
        = (c.activatePlayer t1 p).1.state) ∧
    (((c.activatePlayer t1 p).1.activatePlayer t2 p).1.activePlayers
        = (c.activatePlayer t1 p).1.activePlayers) ∧
    (((c.activatePlayer t1 p).1.activatePlayer t2 p).1.timerPending
        = (c.activatePlayer t1 p).1.timerPending) ∧
    (((c.activatePlayer t1 p).1.activatePlayer t2 p).1.pinSuspend
        = (c.activatePlayer t1 p).1.pinSuspend) ∧
    (((c.activatePlayer t1 p).1.activatePlayer t2 p).1.pinMute
        = (c.activatePlayer t1 p).1.pinMute) ∧
    (((c.activatePlayer t1 p).1.activatePlayer t2 p).1.pinLed
        = (c.activatePlayer t1 p).1.pinLed) ∧
    ((c.activatePlayer t1 p).1.activatePlayer t2 p).2 = [] := by
  have hs := activatePlayer_fst_state t1 p c
  have hmem : p ∈ (c.activatePlayer t1 p).1.activePlayers := by
    rw [activatePlayer_fst_activePlayers]
    exact mem_insertPlayer_self p _
  rw [activatePlayer_already_active t2 hs hmem]
  refine ⟨rfl, rfl, ?_, rfl, rfl, rfl, rfl⟩
  rw [activatePlayer_fst_timerPending]

/-- C4: a markPlayerActive(p) call arriving during the mute-to-suspend
delay of a deactivation in progress (channel Active, player set already
empty) always wins, under either admissible interleaving: the channel ends
Active with p in the active set and the mute pin unmuted. -/
theorem play_during_mute_delay_wins (c : Soundcard) (t : Nat) (p : String)
    (b : Bool) (hs : c.state = DeviceState.ON) (hp : c.activePlayers = []) :
    (c.deactivateRaced t p b).1.state = DeviceState.ON ∧
    p ∈ (c.deactivateRaced t p b).1.activePlayers ∧
    (c.deactivateRaced t p b).1.pinMute = false := by
  cases b <;>
    simp [Soundcard.deactivateRaced, Soundcard.deactivatePhase1,
      Soundcard.deactivatePhase2, Soundcard.activatePlayer, Soundcard.activate,
      insertPlayer, hp, hs]

/-- Concrete Active idle channel used by the C4 witness. -/
def cardOnW : Soundcard :=
  { initCard cfgW with state := DeviceState.ON, pinSuspend := false,
                       pinMute := false, pinLed := true }

/-- Witness for C4 at a concrete channel, in the interleaved schedule. -/
theorem play_during_mute_delay_wins_witness :
    cardOnW.state = DeviceState.ON ∧ cardOnW.activePlayers = [] ∧
    ((cardOnW.deactivateRaced 5 "a" true).1.state = DeviceState.ON ∧
     "a" ∈ (cardOnW.deactivateRaced 5 "a" true).1.activePlayers ∧
     (cardOnW.deactivateRaced 5 "a" true).1.pinMute = false) :=
  ⟨by decide, by decide,
   play_during_mute_delay_wins cardOnW 5 "a" true (by decide) (by decide)⟩

theorem supply_deactivate_fst_timer (s : PowerSupply) :
    s.deactivate.1.timer = s.timer := by
  unfold PowerSupply.deactivate
  split
  · rfl
  · rfl

theorem check_soundcards (d : Daemon) :
    d.checkPowerSupplyDeactivation.soundcards = d.soundcards := by
  unfold Daemon.checkPowerSupplyDeactivation
  dsimp only
  split
  · rfl
  · rfl

/-- The supply/channel dependency invariant of claim C1: the supply is On
whenever any channel is Active, and a pending supply-deactivation timer
can only exist while no channel is Active. -/
def DInv (d : Daemon) : Prop :=
  (d.soundcards.any Soundcard.isActive = true → d.powerSupply.isActive = true) ∧
  (d.powerSupply.timer ≠ none → d.soundcards.any Soundcard.isActive = false)

theorem check_DInv {d : Daemon} (h : DInv d) :
    DInv d.checkPowerSupplyDeactivation := by
  unfold Daemon.checkPowerSupplyDeactivation
  dsimp only
  split
  · next hcond =>
    constructor
    · intro hany
      rw [hcond.1] at hany
      exact Bool.noConfusion hany
    · intro _
      exact hcond.1
  · exact h

theorem any_isActive_map_of_state_eq (l : List Soundcard)
    (g : Soundcard → Soundcard) (h : ∀ c, (g c).state = c.state) :
    (l.map g).any Soundcard.isActive = l.any Soundcard.isActive := by
  induction l with
  | nil => rfl
  | cons c cs ih => simp [List.any_cons, ih, Soundcard.isActive, h c]

theorem any_isActive_map_mono (l : List Soundcard) (g : Soundcard → Soundcard)
    (h : ∀ c, (g c).isActive = true → c.isActive = true)
    (hl : (l.map g).any Soundcard.isActive = true) :
    l.any Soundcard.isActive = true := by
  induction l with
  | nil => simp at hl
  | cons c cs ih =>
    simp only [List.map_cons, List.any_cons, Bool.or_eq_true] at hl ⊢
    rcases hl with h1 | h2
    · exact Or.inl (h c h1)
    · exact Or.inr (ih h2)

theorem any_isActive_map_false (l : List Soundcard) (g : Soundcard → Soundcard)
    (h : ∀ c, (g c).isActive = true → c.isActive = true)
    (hl : l.any Soundcard.isActive = false) :
    (l.map g).any Soundcard.isActive = false := by
  cases hmg : (l.map g).any Soundcard.isActive
  · rfl
  · rw [any_isActive_map_mono l g h hmg] at hl
    exact Bool.noConfusion hl

theorem handlePlayerEvent_DInv (t : Nat) (name : String) (st : Nat)
    {d : Daemon} (h : DInv d) : DInv (d.handlePlayerEvent t name st).1 := by
  unfold Daemon.handlePlayerEvent
  cases hroute : lookupRoute name d.playerToSoundcard with
  | none => exact h
  | some i =>
    dsimp only
    split
    · constructor
      · intro _
        simp [Daemon.updateCard, PowerSupply.isActive, supply_activate_fst_state]
      · intro htimer
        exact absurd (supply_activate_fst_timer d.powerSupply) htimer
    · have hstate : ∀ c : Soundcard,
          ((fun c0 => if c0.config.id = i then c0.deactivatePlayer name else c0) c).state
            = c.state := by
        intro c
        dsimp only
        split
        · exact deactivatePlayer_state name c
        · rfl
      have htrans := any_isActive_map_of_state_eq d.soundcards _ hstate
      apply check_DInv
      constructor
      · intro hany
        rw [Daemon.updateCardPure] at hany
        dsimp only at hany
        rw [htrans] at hany
        exact h.1 hany
      · intro ht
        rw [Daemon.updateCardPure]
        dsimp only
        rw [htrans]
        exact h.2 ht

theorem fireCardStep_fst_isActive_mono (i : Nat) (c : Soundcard)
    (hact : (fireCardStep i c).1.isActive = true) : c.isActive = true := by
  unfold fireCardStep at hact
  dsimp only at hact
  split at hact
  · rcases deactivateRun_card_state { c with timerPending := false } with hh | hh
    · unfold Soundcard.isActive at hact ⊢
      rw [hh] at hact
      exact hact
    · unfold Soundcard.isActive at hact
      rw [hh] at hact
      simp at hact
  · exact hact

theorem fireCardTimer_DInv (i : Nat) {d : Daemon} (h : DInv d) :
    DInv (d.fireCardTimer i) := by
  unfold Daemon.fireCardTimer
  dsimp only
  have hd1 : DInv { d with
      soundcards := (d.soundcards.map (fireCardStep i)).map Prod.fst } := by
    constructor
    · intro hany
      dsimp only at hany
      rw [List.map_map] at hany
      exact h.1 (any_isActive_map_mono _ _
        (fun c => fireCardStep_fst_isActive_mono i c) hany)
    · intro ht
      dsimp only
      rw [List.map_map]
      exact any_isActive_map_false _ _
        (fun c => fireCardStep_fst_isActive_mono i c) (h.2 ht)
  split
  · exact check_DInv hd1
  · exact hd1

theorem fireSupplyTimer_DInv {d : Daemon} (h : DInv d) :
    DInv d.fireSupplyTimer := by
  unfold Daemon.fireSupplyTimer
  cases htimer : d.powerSupply.timer with
  | none => exact h
  | some x =>
    have hany := h.2 (by rw [htimer]; exact fun hc => Option.noConfusion hc)
    constructor
    · intro hany2
      rw [hany] at hany2
      exact Bool.noConfusion hany2
    · intro _
      exact hany

theorem applyEvent_DInv {d : Daemon} (e : Event) (h : DInv d) :
    DInv (d.applyEvent e) := by
  cases e with
  | player t name st => exact handlePlayerEvent_DInv t name st h
  | fireCardTimer i => exact fireCardTimer_DInv i h
  | fireSupplyTimer => exact fireSupplyTimer_DInv h

theorem applyEvents_DInv (evs : List Event) {d : Daemon} (h : DInv d) :
    DInv (Daemon.applyEvents evs d) := by
  induction evs generalizing d with
  | nil => exact h
  | cons e rest ih => exact ih (applyEvent_DInv e h)

theorem initCards_any_false (cfgs : List SoundcardConfig) :
    (cfgs.map initCard).any Soundcard.isActive = false := by
  induction cfgs with
  | nil => rfl
  | cons cfg rest ih => simp [List.any_cons, ih, initCard, Soundcard.isActive]

theorem init_DInv (cfgs : List SoundcardConfig) (pin timeout : Nat) :
    DInv (Daemon.init cfgs pin timeout) := by
  constructor
  · intro hany
    rw [show (Daemon.init cfgs pin timeout).soundcards = cfgs.map initCard
          from rfl, initCards_any_false] at hany
    exact Bool.noConfusion hany
  · intro ht
    exact absurd rfl ht

/-- C1: in every daemon state reachable from startup by play/stop events
and timer firings (failure-free path), the supply is On whenever some
channel reports Active, and a pending supply-off timer can only exist
while no channel reports Active (so the supply is only switched Off by a
timer scheduled when no channel was Active). -/
theorem supply_on_while_any_channel_active (cfgs : List SoundcardConfig)
    (pin timeout : Nat) (evs : List Event) :
    ((Daemon.applyEvents evs (Daemon.init cfgs pin timeout)).soundcards.any
        Soundcard.isActive = true →
      (Daemon.applyEvents evs (Daemon.init cfgs pin timeout)).powerSupply.isActive
        = true) ∧
    ((Daemon.applyEvents evs (Daemon.init cfgs pin timeout)).powerSupply.timer
        ≠ none →
      (Daemon.applyEvents evs (Daemon.init cfgs pin timeout)).soundcards.any
        Soundcard.isActive = false) :=
  applyEvents_DInv evs (init_DInv cfgs pin timeout)

/-- Witness for C1: a play event leaves a channel Active and the supply
On; after stop and channel-timer expiry a supply timer is pending and no
channel is Active. -/
theorem supply_on_while_any_channel_active_witness :
    ((Daemon.applyEvents [Event.player 1 "a" 1]
        (Daemon.init [cfgW] 13 1800)).soundcards.any Soundcard.isActive = true ∧
     (Daemon.applyEvents [Event.player 1 "a" 1]
        (Daemon.init [cfgW] 13 1800)).powerSupply.isActive = true) ∧
    ((Daemon.applyEvents [Event.player 1 "a" 1, Event.player 2 "a" 0,
          Event.fireCardTimer 0]
        (Daemon.init [cfgW] 13 1800)).powerSupply.timer ≠ none ∧
     (Daemon.applyEvents [Event.player 1 "a" 1, Event.player 2 "a" 0,
          Event.fireCardTimer 0]
        (Daemon.init [cfgW] 13 1800)).soundcards.any Soundcard.isActive = false) :=
  ⟨⟨by decide,
    (supply_on_while_any_channel_active [cfgW] 13 1800
      [Event.player 1 "a" 1]).1 (by decide)⟩,
   ⟨by decide,
    (supply_on_while_any_channel_active [cfgW] 13 1800
      [Event.player 1 "a" 1, Event.player 2 "a" 0,
       Event.fireCardTimer 0]).2 (by decide)⟩⟩

/-- C6: checkPowerSupplyDeactivation schedules the supply deactivation
(with the configured supply-idle timeout, replacing any pending supply
timer) exactly when no channel reports Active and the supply reports
Active; in every other case it changes nothing. -/
theorem checkSupplyRelease_spec (d : Daemon) :
    (((∀ c ∈ d.soundcards, c.isActive = false) ∧ d.powerSupply.isActive = true) →
      d.checkPowerSupplyDeactivation
        = { d with powerSupply := d.powerSupply.scheduleDeactivation }) ∧
    ((¬ ((∀ c ∈ d.soundcards, c.isActive = false) ∧
          d.powerSupply.isActive = true)) →
      d.checkPowerSupplyDeactivation = d) := by
  have hiff : (d.soundcards.any Soundcard.isActive = false)
      ↔ ∀ c ∈ d.soundcards, c.isActive = false := by
    rw [List.any_eq_false]
    constructor
    · intro h c hc
      have h2 := h c hc
      simpa using h2
    · intro h c hc
      simp [h c hc]
  constructor
  · rintro ⟨hall, hsup⟩
    unfold Daemon.checkPowerSupplyDeactivation
    dsimp only
    rw [if_pos ⟨hiff.mpr hall, hsup⟩]
  · intro hn
    unfold Daemon.checkPowerSupplyDeactivation
    dsimp only
    rw [if_neg]
    rintro ⟨hany, hsup⟩
    exact hn ⟨hiff.mp hany, hsup⟩

/-- Concrete supply that is On with no pending timer, for witnesses. -/
def supplyOnW : PowerSupply :=
  { gpioPin := 13, state := DeviceState.ON, timer := none, timeout := 1800,
    pinHigh := false }

/-- Concrete daemon whose only card is Suspended while the supply is On. -/
def dIdleW : Daemon :=
  { soundcards := [initCard cfgW], playerToSoundcard := buildRoutes [cfgW],
    powerSupply := supplyOnW, errorLedInitialized := true,
    errorLedActive := false }

/-- Witness for C6: with no Active channel and the supply On, the check
schedules the supply deactivation. -/
theorem checkSupplyRelease_spec_witness :
    ((∀ c ∈ dIdleW.soundcards, c.isActive = false) ∧
      dIdleW.powerSupply.isActive = true) ∧
    dIdleW.checkPowerSupplyDeactivation
      = { dIdleW with powerSupply := dIdleW.powerSupply.scheduleDeactivation } :=
  ⟨by decide, (checkSupplyRelease_spec dIdleW).1 (by decide)⟩

/-- C7: for a routed player, a play event calls supply.activate first
(leaving the supply On with no pending timer, whatever its prior state)
and only then the channel's markPlayerActive; a stop event calls
markPlayerInactive and then immediately the supply-release check. -/
theorem onPlayerEvent_ordering (d : Daemon) (t : Nat) (p : String) (i : Nat)
    (h : lookupRoute p d.playerToSoundcard = some i) :
    (d.handlePlayerEvent t p 1).2.1
        = [CallAction.supplyActivate, CallAction.markPlayerActive p] ∧
    (d.handlePlayerEvent t p 1).1.powerSupply.timer = none ∧
    (d.handlePlayerEvent t p 1).1.powerSupply.state = DeviceState.ON ∧
    (d.handlePlayerEvent t p 1).1
        = (Daemon.updateCard i (Soundcard.activatePlayer t p)
            { d with powerSupply := d.powerSupply.activate.1 }).1 ∧
    (d.handlePlayerEvent t p 1).2.2
        = d.powerSupply.activate.2
          ++ (Daemon.updateCard i (Soundcard.activatePlayer t p)
               { d with powerSupply := d.powerSupply.activate.1 }).2 ∧
    (d.handlePlayerEvent t p 0).2.1
        = [CallAction.markPlayerInactive p, CallAction.checkSupplyRelease] ∧
    (d.handlePlayerEvent t p 0).1
        = (Daemon.updateCardPure i (Soundcard.deactivatePlayer p)
            d).checkPowerSupplyDeactivation := by
  unfold Daemon.handlePlayerEvent
  rw [h]
  dsimp only
  rw [if_pos rfl, if_neg (by decide)]
  refine ⟨rfl, ?_, ?_, rfl, rfl, rfl, rfl⟩
  · exact supply_activate_fst_timer d.powerSupply
  · exact supply_activate_fst_state d.powerSupply

/-- Concrete daemon with the default routing, for witnesses. -/
def dRouteW : Daemon := Daemon.init [cfgW] 13 1800

/-- Witness for C7 at a routed player. -/
theorem onPlayerEvent_ordering_witness :
    lookupRoute "a" dRouteW.playerToSoundcard = some 0 ∧
    (dRouteW.handlePlayerEvent 1 "a" 1).2.1
      = [CallAction.supplyActivate, CallAction.markPlayerActive "a"] :=
  ⟨by decide, (onPlayerEvent_ordering dRouteW 1 "a" 0 (by decide)).1⟩

/-- C8: an event for a player absent from the routing table returns with
the daemon state unchanged, no pin write, and only an unknown-player
warning logged. -/
theorem unknown_player_event_noop (d : Daemon) (t : Nat) (p : String)
    (st : Nat) (h : lookupRoute p d.playerToSoundcard = none) :
    d.handlePlayerEvent t p st = (d, [CallAction.warnUnknownPlayer p], []) := by
  unfold Daemon.handlePlayerEvent
  rw [h]

/-- Witness for C8 at a concrete unknown player. -/
theorem unknown_player_event_noop_witness :
    lookupRoute "zz" dRouteW.playerToSoundcard = none ∧
    dRouteW.handlePlayerEvent 1 "zz" 1
      = (dRouteW, [CallAction.warnUnknownPlayer "zz"], []) :=
  ⟨by decide, unknown_player_event_noop dRouteW 1 "zz" 1 (by decide)⟩

/-- C9: if a pin write raises during a channel's activation or
deactivation sequence, the channel's logical power flag retains its
pre-sequence value (the flag is assigned only after every write of the
sequence succeeded). -/
theorem failed_sequence_keeps_logical_state (c : Soundcard) (f : List Bool) :
    ((c.activateF f).faulted = true → (c.activateF f).card.state = c.state) ∧
    ((c.deactivateF f).faulted = true → (c.deactivateF f).card.state = c.state) := by
  constructor
  · unfold Soundcard.activateF
    dsimp only
    split
    · intro hcontra
      exact Bool.noConfusion hcontra
    · split
      · intro _
        rfl
      · split
        · intro _
          rfl
        · split
          · intro _
            rfl
          · intro hcontra
            exact Bool.noConfusion hcontra
  · unfold Soundcard.deactivateF
    dsimp only
    split
    · intro hcontra
      exact Bool.noConfusion hcontra
    · split
      · intro hcontra
        exact Bool.noConfusion hcontra
      · split
        · intro _
          rfl
        · split
          · intro _
            rfl
          · split
            · intro _
              rfl
            · intro hcontra
              exact Bool.noConfusion hcontra

/-- Witness for C9: a failing first write during activation of a
Suspended card and during deactivation of an Active card leaves each flag
at its pre-sequence value. -/
theorem failed_sequence_keeps_logical_state_witness :
    (((initCard cfgW).activateF [false]).faulted = true ∧
     ((initCard cfgW).activateF [false]).card.state = (initCard cfgW).state) ∧
    ((cardOnW.deactivateF [false]).faulted = true ∧
     (cardOnW.deactivateF [false]).card.state = cardOnW.state) :=
  ⟨⟨by decide,
    (failed_sequence_keeps_logical_state (initCard cfgW) [false]).1 (by decide)⟩,
   ⟨by decide,
    (failed_sequence_keeps_logical_state cardOnW [false]).2 (by decide)⟩⟩

/-- Concrete daemon in the premise state of Scenario C: one Active card,
supply On, error LED initialized and off. -/
def dEmergW : Daemon :=
  { soundcards := [cardOnW], playerToSoundcard := buildRoutes [cfgW],
    powerSupply := supplyOnW, errorLedInitialized := true,
    errorLedActive := false }

/-- Counterexample to C3 as stated: with exactly one failing pin write in
the cascade (the card's own mute write; every other write succeeds), the
card's state after handleError is still ON, not Suspended — even though
the fault flag is set and the supply was switched Off. -/
theorem emergencyShutdown_single_failure_counterexample :
    dEmergW.soundcards.map Soundcard.state = [DeviceState.ON] ∧
    dEmergW.powerSupply.state = DeviceState.ON ∧
    (Daemon.handleError [true, false] dEmergW).1.errorLedActive = true ∧
    (Daemon.handleError [true, false] dEmergW).1.powerSupply.state
      = DeviceState.OFF ∧
    ¬ (Daemon.handleError [true, false] dEmergW).1.soundcards.map Soundcard.state
      = [DeviceState.OFF] := by
  refine ⟨rfl, rfl, rfl, rfl, ?_⟩
  decide

theorem emergencyOff_nil_oracle (c : Soundcard) :
    (c.emergencyOff []).1.state = DeviceState.OFF ∧
    (c.emergencyOff []).2.2 = [] := by
  unfold Soundcard.emergencyOff
  split
  · simp [nextFault]
  · next hne =>
    refine ⟨?_, rfl⟩
    cases hs : c.state
    · rfl
    · exact absurd hs hne

theorem emergencyOffAll_nil_oracle (l : List Soundcard) :
    ((emergencyOffAll [] l).1.all
        (fun c => c.state = DeviceState.OFF) = true) ∧
    (emergencyOffAll [] l).2.2 = [] := by
  induction l with
  | nil => exact ⟨rfl, rfl⟩
  | cons c rest ih =>
    have hc := emergencyOff_nil_oracle c
    constructor
    · dsimp only [emergencyOffAll]
      rw [hc.2]
      simp [List.all_cons, hc.1, ih.1]
    · dsimp only [emergencyOffAll]
      rw [hc.2]
      exact ih.2

/-- C3 amended: when no pin write of the cascade fails, emergency shutdown
leaves the fault flag set, every channel Suspended and the supply Off (the
cascade still runs LED first, then channels, then supply, and continues
through failures, but a component whose own pin write fails keeps its
previous logical state, and a failed error-LED write leaves the fault flag
unset). -/
theorem emergencyShutdown_cascade (d : Daemon)
    (hled : d.errorLedInitialized = true) :
    (d.handleError []).1.errorLedActive = true ∧
    (d.handleError []).1.soundcards.all
        (fun c => c.state = DeviceState.OFF) = true ∧
    (d.handleError []).1.powerSupply.state = DeviceState.OFF := by
  have hcards := emergencyOffAll_nil_oracle d.soundcards
  unfold Daemon.handleError
  dsimp only [nextFault]
  rw [if_pos hled, if_pos rfl]
  refine ⟨rfl, hcards.1, ?_⟩
  rw [hcards.2]
  dsimp only [nextFault]
  split
  · rw [if_pos rfl]
  · next hne =>
    cases hs : d.powerSupply.state
    · rfl
    · exact absurd hs hne

/-- Witness for the amended C3 at the Scenario C state. -/
theorem emergencyShutdown_cascade_witness :
    dEmergW.errorLedInitialized = true ∧
    ((dEmergW.handleError []).1.errorLedActive = true ∧
     (dEmergW.handleError []).1.soundcards.all
        (fun c => c.state = DeviceState.OFF) = true ∧
     (dEmergW.handleError []).1.powerSupply.state = DeviceState.OFF) :=
  ⟨rfl, emergencyShutdown_cascade dEmergW rfl⟩

/-- Whether a card's temperature read succeeds when a sensor is
configured (no sensor configured counts as success). -/
def sensorReadOk (w1 : String → Option (List String)) (c : Soundcard) : Bool :=
  !(sensorConfigured c.config.tempSensor)
    || (readTemperature w1 (c.config.tempSensor.getD "")).isSome

theorem statusOf_spec (w1 : String → Option (List String)) (c : Soundcard) :
    isOkE (c.statusOf w1) = sensorReadOk w1 c ∧
    ∀ e, c.statusOf w1 = Except.error e → e = "TypeError" := by
  unfold Soundcard.statusOf sensorReadOk
  dsimp only
  split
  · next hconf =>
    rw [hconf]
    cases hr : readTemperature w1 (c.config.tempSensor.getD "") with
    | none =>
      constructor
      · simp [isOkE]
      · intro e he
        injection he with h2
        exact h2.symm
    | some v =>
      constructor
      · simp [isOkE]
      · intro e he
        exact Except.noConfusion he
  · next hconf =>
    have hc0 : sensorConfigured c.config.tempSensor = false := by
      cases hcc : sensorConfigured c.config.tempSensor
      · rfl
      · exact absurd hcc hconf
    rw [hc0]
    constructor
    · simp [isOkE]
    · intro e he
      exact Except.noConfusion he

theorem statusAll_spec (w1 : String → Option (List String))
    (l : List Soundcard) :
    isOkE (statusAll w1 l) = l.all (sensorReadOk w1) ∧
    ∀ e, statusAll w1 l = Except.error e → e = "TypeError" := by
  induction l with
  | nil => exact ⟨rfl, fun e he => Except.noConfusion he⟩
  | cons c rest ih =>
    have hc := statusOf_spec w1 c
    dsimp only [statusAll]
    cases hs : c.statusOf w1 with
    | error e1 =>
      have hfalse : sensorReadOk w1 c = false := by
        rw [← hc.1, hs]
        rfl
      constructor
      · simp [isOkE, List.all_cons, hfalse]
      · intro e he
        injection he with h2
        rw [← h2]
        exact hc.2 e1 hs
    | ok st =>
      have hok : sensorReadOk w1 c = true := by
        rw [← hc.1, hs]
        rfl
      cases hr : statusAll w1 rest with
      | error e2 =>
        have hf : rest.all (sensorReadOk w1) = false := by
          rw [← ih.1, hr]
          rfl
        constructor
        · simp [isOkE, List.all_cons, hok, hf]
        · intro e he
          injection he with h2
          rw [← h2]
          exact ih.2 e2 hr
      | ok sts =>
        have ht : rest.all (sensorReadOk w1) = true := by
          rw [← ih.1, hr]
          rfl
        constructor
        · simp [isOkE, List.all_cons, hok, ht]
        · intro e he
          exact Except.noConfusion he

/-- C10: getStatus returns normally exactly when every configured sensor
read succeeds, and any configured sensor read returning None makes
getStatus raise TypeError (from `round(None, 1)`) instead of returning a
status dictionary. -/
theorem getStatus_partial_on_sensor_failure (w1 : String → Option (List String))
    (t : Nat) (d : Daemon) :
    isOkE (d.getStatus w1 t) = d.soundcards.all (sensorReadOk w1) ∧
    (d.soundcards.all (sensorReadOk w1) = false →
      d.getStatus w1 t = Except.error "TypeError") := by
  have hall := statusAll_spec w1 d.soundcards
  unfold Daemon.getStatus
  cases hs : statusAll w1 d.soundcards with
  | error e =>
    have he := hall.2 e hs
    have hf : d.soundcards.all (sensorReadOk w1) = false := by
      rw [← hall.1, hs]
      rfl
    constructor
    · rw [hf]
      rfl
    · intro _
      rw [he]
  | ok sts =>
    have ht : d.soundcards.all (sensorReadOk w1) = true := by
      rw [← hall.1, hs]
      rfl
    constructor
    · rw [ht]
      rfl
    · intro hcontra
      rw [ht] at hcontra
      exact Bool.noConfusion hcontra

/-- A 1-wire filesystem with no sensor files, for the C10 witness. -/
def w1NoneW : String → Option (List String) := fun _ => none

/-- Concrete card with a configured temperature sensor. -/
def cardSensW : Soundcard := initCard { cfgW with tempSensor := some "28-abc" }

/-- Concrete daemon whose only card has a configured sensor. -/
def dSensW : Daemon :=
  { soundcards := [cardSensW], playerToSoundcard := buildRoutes [cfgW],
    powerSupply := initSupply 13 1800, errorLedInitialized := true,
    errorLedActive := false }

/-- Witness for C10: a configured sensor whose file is missing makes
getStatus raise TypeError. -/
theorem getStatus_partial_on_sensor_failure_witness :
    dSensW.soundcards.all (sensorReadOk w1NoneW) = false ∧
    dSensW.getStatus w1NoneW 0 = Except.error "TypeError" :=
  ⟨by decide,
   (getStatus_partial_on_sensor_failure w1NoneW 0 dSensW).2 (by decide)⟩

end AmpDaemon
